import Mathlib

set_option maxRecDepth 8192

/-!
Verification development for the Bash script-template generator
(`create-bash-script.py`).  The Python program is shallowly embedded:
pure text manipulation becomes Lean functions on `String` / `List Char`,
the two output writers become explicit state records, the fragment
pipeline becomes a function from the configuration and the writer state
to the new writer state, and the fallible paths (`raise ValueError`,
`raise RuntimeError`, the unbounded collision-probing loop) become
`Except` / fuel.
-/

namespace CreateBashScript

/-! ## Basic constants (module-level constants of the script) -/

/-- `os.devnull` on the POSIX systems the script targets. -/
def devnull : String := "/dev/null"

def COMMON_BASENAME_WITHOUT_EXTENSION : String := "common"

def COMMON_BASENAME_EXTENSION : String := ".sh"

/-- Basename of a file that may be created to store common utility functions. -/
def COMMON_BASENAME : String :=
  COMMON_BASENAME_WITHOUT_EXTENSION ++ COMMON_BASENAME_EXTENSION

/-! ## Character/line utilities

Models of the Python text primitives the generator relies on:
`str.splitlines`, `textwrap.dedent`, `re.sub(r'^( {4})+', …)`,
`str.strip` emptiness.  Everything is routed through `List Char` so the
kernel can evaluate concrete runs and induction is available for the
general lemmas.
-/

/-- Number of leading `' '` characters (the regex ` {4}` only matches
plain spaces). -/
def countLeadingSpaces : List Char → Nat
  | [] => 0
  | c :: cs => if c = ' ' then countLeadingSpaces cs + 1 else 0

def leadingSpaces (s : String) : Nat := countLeadingSpaces s.data

/-- `n` spaces. -/
def mkSpaces (n : Nat) : String := String.mk (List.replicate n ' ')

/-- Drop the first `n` characters. -/
def dropChars (n : Nat) (s : String) : String := String.mk (s.data.drop n)

/-- A character matched by the character class `[ \t]` used by
`textwrap.dedent`'s regexes. -/
def isIndentChar (c : Char) : Bool := c = ' ' || c = '\t'

/-- Model of `is_blank` from the script: `s is None or not s.strip()`,
i.e. the line holds only whitespace (the `None` case is the absent
argument of `add_line`, modelled by the empty string). -/
def is_blank (s : String) : Bool := s.data.all (fun c => c.isWhitespace)

/-- Split on `'\n'`, keeping every segment (n newlines give n+1
segments), the raw decomposition both `str.splitlines` and
`textwrap.dedent` are built from. -/
def splitSegs : List Char → List (List Char)
  | [] => [[]]
  | c :: cs =>
    let r := splitSegs cs
    if c = '\n' then [] :: r
    else
      match r with
      | [] => [[c]]
      | l :: ls => (c :: l) :: ls

/-- Python `str.splitlines` (for `'\n'`-separated text): the segments of
`splitSegs`, except that a final empty segment — produced by a trailing
newline, or by an empty text — yields no line. -/
def finishSegs (segs : List (List Char)) : List String :=
  let segs2 :=
    match segs.getLast? with
    | some [] => segs.dropLast
    | _ => segs
  segs2.map (fun s => String.mk s)

def splitlines (t : String) : List String := finishSegs (splitSegs t.data)

/-- Longest common prefix of two character lists (how `textwrap.dedent`
accumulates the margin). -/
def commonPrefix : List Char → List Char → List Char
  | a :: as, b :: bs => if a = b then a :: commonPrefix as bs else []
  | _, _ => []

/-- The margin `textwrap.dedent` strips: the longest common prefix of
the leading `[ \t]` runs of the lines that have content.  Lines
consisting solely of `[ \t]` were already normalised to empty by
dedent's first substitution, so they do not take part. -/
def dedentMargin (segs : List (List Char)) : List Char :=
  match (segs.filter (fun s => s ≠ [])).map (fun s => s.takeWhile isIndentChar) with
  | [] => []
  | h :: t => t.foldl commonPrefix h

/-- `textwrap.dedent` followed by `str.splitlines`, exactly the line
sequence `add_lines` iterates over when `keep_indentation` is off:
whitespace-only lines are normalised to empty, the common margin of the
remaining lines is stripped, and a trailing newline (also one produced
by a trailing whitespace-only segment) yields no line. -/
def dedentLines (t : String) : List String :=
  let segs := splitSegs t.data
  let segs := segs.map (fun s => if s ≠ [] ∧ s.all isIndentChar then [] else s)
  let margin := dedentMargin segs
  let segs := segs.map (fun s => if margin.isPrefixOf s then s.drop margin.length else s)
  finishSegs segs

/-- Model of `re.sub(r'^( {4})+', lambda m: one_step * (len(m.group(0)) // 4), line)`
with `one_step = ' ' * indent_size`: the anchored greedy match consumes
the longest leading run of complete 4-space groups — `4 * (n / 4)`
characters when the line starts with `n` spaces and `n ≥ 4`, nothing
otherwise — and is replaced by the same number of `indent_size`-space
groups. -/
def convert_line (indent_size : Nat) (line : String) : String :=
  if leadingSpaces line / 4 = 0 then line
  else
    mkSpaces (indent_size * (leadingSpaces line / 4))
      ++ dropChars (4 * (leadingSpaces line / 4)) line

/-! ## The `Writer` -/

/-- Preferences regarding indentation and so on, with the current state
in that regard.  `current_indent_steps` is a Python `int` (the spec
notes it may go negative when unbalanced), `file = none` means the
standard output. -/
structure Writer where
  output_lines : List String
  current_indent_steps : Int
  indent_size : Nat
  file : Option String
deriving DecidableEq

/-- `indent(levels)`. -/
def Writer.indent (w : Writer) (levels : Int := 1) : Writer :=
  { w with current_indent_steps := w.current_indent_steps + levels }

/-- `unindent(levels)`. -/
def Writer.unindent (w : Writer) (levels : Int := 1) : Writer :=
  { w with current_indent_steps := w.current_indent_steps - levels }

/-- `add_line`: a blank argument (or none, modelled as `""`) appends an
empty line; otherwise the line is prefixed by
`current_indent_steps * indent_size` spaces (a negative product repeats
the space zero times in Python, hence `Int.toNat`). -/
def Writer.add_line (w : Writer) (new_line : String := "") : Writer :=
  let line :=
    if is_blank new_line then ""
    else mkSpaces (w.current_indent_steps * (w.indent_size : Int)).toNat ++ new_line
  { w with output_lines := w.output_lines ++ [line] }

/-- `add_lines`: unless `keep_indentation` is set the text is first
dedented; each resulting line has its leading 4-space groups rewritten
to `indent_size`-space groups and is appended via `add_line`. -/
def Writer.add_lines (w : Writer) (text : String) (keep_indentation : Bool := false) : Writer :=
  let lines := if keep_indentation then splitlines text else dedentLines text
  lines.foldl (fun w line => w.add_line (convert_line w.indent_size line)) w

/-! ## The configuration model

The integer-coded fields range over the closed enumerations the spec's
data model gives them (`err_trap ∈ {0,1,2}`, `exit_trap ∈ {0,1,2,3}`,
`usage ∈ {0,1,2,3}`, `utils ∈ {0,1,2}`); every internal producer of a
configuration (the dataclass defaults and the `ask_choice` answers)
stays inside those ranges.  Defaults are the dataclass defaults. -/
structure FileConfig where
  use_env : Bool := true
  greadlink : Bool := false
  logging_utils : Bool := true
  set_e : Bool := false
  set_x : Bool := false
  err_trap : Fin 3 := 0
  exit_trap : Fin 4 := 0
  main : Bool := false
  options : Bool := true
  positionals : Bool := true
  usage : Fin 4 := 1
  dry : Bool := false
  utils : Fin 3 := 0
deriving DecidableEq

/-! ## Generation state: the two writers

The script holds two process globals, `main_writer` and `utils_writer`
(the latter `None` when utilities are embedded).  `add_line` and friends
take an optional `writer` argument and fall back to `main_writer` when
it is `None`; `WTarget.utils` with `utils = none` reproduces exactly
that fallback. -/

inductive WTarget where
  | main
  | utils
deriving DecidableEq

structure GenState where
  main : Writer
  utils : Option Writer
deriving DecidableEq

def GenState.writerOf (st : GenState) (t : WTarget) : Writer :=
  match t with
  | .main => st.main
  | .utils =>
    match st.utils with
    | some w => w
    | none => st.main

def GenState.setWriter (st : GenState) (t : WTarget) (w : Writer) : GenState :=
  match t with
  | .main => { st with main := w }
  | .utils =>
    match st.utils with
    | some _ => { st with utils := some w }
    | none => { st with main := w }

/-- `add_line(s, **writer_config)`. -/
def GenState.addL (st : GenState) (t : WTarget) (s : String := "") : GenState :=
  st.setWriter t ((st.writerOf t).add_line s)

/-- `add_lines(text, keep_indentation, **writer_config)`. -/
def GenState.addB (st : GenState) (t : WTarget) (text : String)
    (keep_indentation : Bool := false) : GenState :=
  st.setWriter t ((st.writerOf t).add_lines text keep_indentation)

/-- `indent(n, **writer_config)`. -/
def GenState.ind (st : GenState) (t : WTarget) (n : Int := 1) : GenState :=
  st.setWriter t ((st.writerOf t).indent n)

/-- `unindent(n, **writer_config)`. -/
def GenState.unind (st : GenState) (t : WTarget) (n : Int := 1) : GenState :=
  st.setWriter t ((st.writerOf t).unindent n)

/-- The fallible paths of the generator: `raise ValueError` on an
integer-coded choice outside its enumeration, `raise RuntimeError` on
the two internal-consistency checks, and exhaustion of the fuel that
models the unbounded collision-probing `while True` loop. -/
inductive GenErr where
  | valueError
  | runtimeError
  | fuelExhausted
deriving DecidableEq

/-- `writer_config`: the shared utility fragments go to the utility
writer exactly when utilities are externalized (`utils != 0`). -/
def wtFor (c : FileConfig) : WTarget :=
  if c.utils = 0 then .main else .utils

/-! ## The fragment generators (`part_*` / `subpart_*` functions)

Each is a direct transcription of the corresponding Python function;
the string payloads are the exact values of the Python literals
(`\x7b`/`\x7d` are `{`/`}`, `\x27` is a single quote). -/

def get_shebang (c : FileConfig) : String :=
  if c.use_env then "#! /usr/bin/env bash" else "#! /bin/bash"

def part_shebang (c : FileConfig) (st : GenState) : GenState :=
  (st.addL .main (get_shebang c)).addL .main

def part_flags (c : FileConfig) (st : GenState) : GenState :=
  let flags : List String :=
    (if c.set_e then ["e"] else [])
      ++ (if c.err_trap = 2 then ["E"] else [])
      ++ (if c.set_x then ["x"] else [])
  if flags ≠ [] then
    (st.addL .main ("set -" ++ String.join flags)).addL .main
  else st

def part_basedir (c : FileConfig) (st : GenState) : GenState :=
  let st :=
    if c.greadlink then
      st.addB .main "        if type greadlink &> /dev/null\n        then\n            BASEDIR=$(dirname \"$(greadlink -f -- \"$0\")\")\n        else\n            BASEDIR=$(dirname \"$(readlink -f -- \"$0\")\")\n        fi"
    else
      st.addL .main "BASEDIR=$(dirname \"$(readlink -f -- \"$0\")\")"
  let st := st.addL .main "# Adapt or remove the ROOTDIR definition depending"
  let st := st.addL .main "# on the depth of this script within the project."
  let st := st.addL .main "ROOTDIR=$(dirname \"$BASEDIR\")"
  let st := st.addL .main "readonly BASEDIR ROOTDIR"
  st.addL .main

def part_constants (c : FileConfig) (st : GenState) : GenState :=
  if c.positionals then
    (st.addL .main "readonly DEFAULT_BAR=/the/default/bar").addL .main
  else st

def part_logging_utils (c : FileConfig) (st : GenState) : GenState :=
  if ¬ c.logging_utils then st
  else
    let t := wtFor c
    let st := st.addB t "    # For internal use via the logging functions below.\n    #\n    # $1    String added between the program name and the message,\n    #       typically to specify the log level.\n    # $2    Printf-style format string.\n    # $3…n  Arguments for printf.\n    _f_log() \x7b\n        local prog"
    let st := st.ind t
    let st :=
      if c.dry then st.addL t "prog=$(basename \"$0\"):$\x7bDRY:+ [DRY RUN]\x7d"
      else st.addL t "prog=$(basename \"$0\"):"
    let st := st.unind t
    st.addB t "        printf \"%s %s$\x7b2\x7d\\n\" \"$prog\" \"$1\" \"$\x7b@:3\x7d\"\n    \x7d\n\n    # $1    Printf-style format string.\n    # $2…n  Arguments for printf.\n    log() \x7b\n        _f_log \x27   INFO  \x27 \"$@\"\n    \x7d\n\n    # $1    Printf-style format string.\n    # $2…n  Arguments for printf.\n    warn() \x7b\n        _f_log \x27WARNING  \x27 \"$@\" >&2\n    \x7d\n\n    # $1    Printf-style format string.\n    # $2…n  Arguments for printf.\n    err() \x7b\n        _f_log \x27  ERROR  \x27 \"$@\" >&2\n    \x7d\n\n    # Print a command before running it.\n    # (This function takes care of running it).\n    #\n    # $@    The words making up the command to run.\n    log_and_run() \x7b\n        log \x27Running: %s\x27 \"$\x7b*@Q\x7d\"\n        \"$@\"\n    \x7d\n\n    "

def part_dry_run_utils (c : FileConfig) (st : GenState) : GenState :=
  if ¬ c.dry then st
  else
    let logging_command :=
      if c.logging_utils then "log \x27Would have run: %s\x27 \"$\x7b*@Q\x7d\""
      else "printf \x27[DRY RUN] Would have run: %s\\n\x27 \"$\x7b*@Q\x7d\""
    let t := wtFor c
    st.addB t ("        # Returns with 0 status if and only if\n        # the dry run mode is currently activated.\n        is_dry_run() \x7b\n            [[ $DRY ]]\n        \x7d\n\n        # Only run a command if dry run mode is not activated.\n        # In dry run mode, log the command instead to show what\n        # would have been run in a normal context.\n        #\n        # $@    The words making up the command to potentially run.\n        run_if_not_dry() \x7b\n            if is_dry_run\n            then\n                " ++ logging_command ++ "\n            else\n                \"$@\"\n            fi\n        \x7d\n\n        ")

/-- Python's `x or default` for the utility writer's path: `None` and
the empty string are falsy and fall back to the default. -/
def py_or_string (v : Option String) (dflt : String) : String :=
  match v with
  | some s => if s = "" then dflt else s
  | none => dflt

/-- `os.path.basename` for POSIX paths: everything after the last slash. -/
def basename (p : String) : String :=
  String.mk (p.data.reverse.takeWhile (fun c => c ≠ '/')).reverse

def part_libraries (c : FileConfig) (st : GenState) : Except GenErr GenState :=
  if c.utils = 0 then .ok st
  else
    match st.utils with
    | none => .error .runtimeError
    | some uw =>
      let lib_basename := basename (py_or_string uw.file COMMON_BASENAME)
      let instruction := ". \"$\x7bBASEDIR:?\x7d/" ++ lib_basename ++ "\""
      let instruction :=
        if ¬ c.set_e then instruction ++ " || exit" else instruction
      .ok ((st.addL .main instruction).addL .main)

def part_traps_definition (c : FileConfig) (st : GenState) : Except GenErr GenState :=
  let st :=
    if c.err_trap ≠ 0 then
      let st := st.addB .main "        # Executed when a command fails, with the same exceptions as for “set -e”.\n        # See “trap” documentation in “man bash” for details.\n        err_trap() \x7b"
      let st := st.ind .main
      let st :=
        if c.logging_utils then st.addL .main "err \x27An error occurred.\x27"
        else st.addL .main "printf \x27%s: An error occurred.\\n\x27 \"$(basename \"$0\")\" >&2"
      let st := st.unind .main
      (st.addL .main "\x7d").addL .main
    else st
  if c.exit_trap ≠ 0 then
    let st := st.addB .main "        # Executed upon exit, regardless of the cause.\n        exit_trap() \x7b"
    let st := st.ind .main
    let inner : Except GenErr GenState :=
      match c.exit_trap.val with
      | 1 =>
        .ok (if c.logging_utils then st.addL .main "log \x27Exiting.\x27"
             else st.addL .main "printf \x27%s: Exiting.\\n\x27 \"$(basename \"$0\")\"")
      | 2 => .ok (st.addL .main "rm -rf -- \"$_temp_dir\"")
      | 3 => .ok (st.addL .main "rm -rf -- \"$\x7b_to_be_deleted[@]\x7d\"")
      | _ => .error .valueError
    match inner with
    | .ok st =>
      let st := st.unind .main
      .ok ((st.addL .main "\x7d").addL .main)
    | .error e => .error e
  else .ok st

def part_traps_activation (c : FileConfig) (st : GenState) : Except GenErr GenState :=
  let st :=
    if c.err_trap ≠ 0 then (st.addL .main "trap err_trap ERR").addL .main
    else st
  match c.exit_trap.val with
  | 0 => .ok st
  | 1 => .ok ((st.addL .main "trap exit_trap EXIT").addL .main)
  | 2 =>
    let st := st.addL .main "unset -v _temp_dir"
    let st := st.addL .main "trap exit_trap EXIT"
    let st :=
      if c.set_e then st.addL .main "_temp_dir=$(mktemp --directory)"
      else st.addL .main "_temp_dir=$(mktemp --directory) || exit"
    .ok (st.addL .main)
  | 3 =>
    let st := st.addL .main "unset -v _to_be_deleted"
    let st := st.addL .main "_to_be_deleted=()"
    let st := st.addL .main "trap exit_trap EXIT"
    let st :=
      if c.set_e then st.addL .main "_some_dir=$(mktemp --directory)"
      else st.addL .main "_some_dir=$(mktemp --directory) || exit"
    let st := st.addL .main "_to_be_deleted+=(\"$_some_dir\")"
    .ok (st.addL .main)
  | _ => .error .valueError

/-- Set the main writer's configured indent width (the assignments
`main_writer.indent_size = …` inside `part_usage_function`). -/
def GenState.setMainIndentSize (st : GenState) (n : Nat) : GenState :=
  { st with main := { st.main with indent_size := n } }

def part_usage_function (c : FileConfig) (st : GenState) : GenState :=
  if c.usage = 0 then st
  else
    let st := st.addB .main "            print_help() \x7b\n                local prog\n                prog=$(printf \x27%q\x27 \"$0\")\n                cat << _HELP_\n            "
    -- Now entering the Bash “here document” part: the help blurb has
    -- 2-space steps; the initial width is restored at the end
    -- (`try`/`finally` in the source; no exception can occur in
    -- between, so the embedding is the straight-line composition).
    let initial_indent_size := st.main.indent_size
    let st := st.setMainIndentSize 2
    let st := st.addL .main
    let st := st.ind .main
    let st := st.addL .main "Perform blah blah on a blah blah."
    let st := st.addL .main
    let st := st.addL .main "Usage:"
    let st := st.ind .main
    let st :=
      if c.options then
        if c.positionals then st.addL .main "$\x7bprog\x7d [OPTIONS]... FOO [BAR]"
        else st.addL .main "$\x7bprog\x7d [OPTIONS]..."
      else if c.positionals then st.addL .main "$\x7bprog\x7d FOO [BAR]"
      else st.addL .main "<No arguments>"
    let st := st.unind .main
    let st := st.addL .main
    let st :=
      if c.positionals then
        let st := st.addL .main "Arguments:"
        let st := st.ind .main
        let st := st.addL .main "FOO     The foo to process."
        let st := st.addL .main "BAR     (Optional) A bar in which to write the plop."
        let st := st.addL .main "        This allows to blah blah."
        let st := st.addL .main "        Default: “$\x7bDEFAULT_BAR\x7d”"
        let st := st.unind .main
        st.addL .main
      else st
    let st :=
      if c.usage = 1 ∨ c.options then
        let st := st.addL .main "Options:"
        st.ind .main
      else st
    let st :=
      if c.options then
        let st := st.addL .main "-y, --yo            Turn on yo mode."
        let st := st.addL .main "-p, --plop PLOP     Use PLOP as the plop."
        if c.dry then st.addL .main "--dry               Turn dry mode on."
        else st
      else st
    let st :=
      if c.usage = 1 then st.addL .main "-h, --help          Print this message and exit."
      else st
    let st :=
      if c.usage = 1 ∨ c.options then
        let st := st.unind .main
        st.addL .main
      else st
    let st := st.addL .main "Environment variables:"
    let st := st.ind .main
    let st := st.addL .main "GIT_USER    Username for requests to GitHub."
    let st :=
      if c.dry then
        let st := st.addL .main "DRY         If not empty, turn dry mode on."
        st.addL .main "            “Important” commands will be skipped."
      else st
    let st := st.unind .main 2
    let st := st.addB .main "\n        _HELP_\n        \x7d\n\n        "
    st.setMainIndentSize initial_indent_size

def subpart_print_help_if_no_arg (c : FileConfig) (st : GenState) : GenState :=
  if c.usage = 2 then
    let st := st.addB .main "            if (($# == 0))\n            then\n                print_help\n                exit 1\n            fi"
    st.addL .main
  else st

def subpart_handle_help_request_without_fancy_option_parsing
    (c : FileConfig) (with_local_vars : Bool) (st : GenState) : GenState :=
  let st :=
    if c.usage = 1 then
      let st := if with_local_vars then st.addL .main "local arg" else st
      let st := st.addB .main "            for arg\n            do\n                if [[ $\x7barg,,\x7d = @(-h|+(-)help) ]]\n                then\n                    print_help\n                    exit 0\n                fi\n            done"
      st.addL .main
    else st
  subpart_print_help_if_no_arg c st

def subpart_parse_command_function_options_and_positionals
    (c : FileConfig) (st : GenState) : GenState :=
  let st := st.addB .main "        # Fill up global “opt_*” and “arg_*” variables according to given\n        # options and positional parameters, and perform basic checks\n        # on the presence of mandatory info.\n        #\n        # $@    Arguments originally passed to the script itself.\n        parse_command() \x7b"
  let st := st.ind .main 1
  let st := subpart_print_help_if_no_arg c st
  let st := st.addB .main "        # Clear all option-related variables before parsing.\n        unset -v \"$\x7b!opt_@\x7d\"\n\n        local param\n        local -a positionals=()\n        while (($# > 0))\n        do\n            param=$1\n            shift\n            case $param in\n                -y|--yo)\n                    opt_yo=1\n                    ;;\n\n                -p|--plop)\n                    opt_plop=$\x7b1:?Missing argument for option: $\x7bparam\x7d\x7d\n                    shift\n                    ;;\n\n        "
  let st :=
    if c.dry then st.addB .main "        --dry)\n            DRY=1\n            ;;\n            " true
    else st
  let st :=
    if c.usage = 1 then st.addB .main "        -h|--help)\n            print_help\n            exit 0\n            ;;\n        " true
    else st
  let st :=
    if c.usage ≠ 0 then st.addB .main "        -*)\n            print_help >&2" true
    else st.addB .main "        -*)" true
  let st := st.ind .main 3
  let st :=
    if c.logging_utils then st.addL .main "err \x27Invalid option: %q\x27 \"$param\""
    else st.addL .main "printf \x27%s: Error: Invalid option: %q\\n\x27 \"$(basename \"$0\")\" \"$param\" >&2"
  let st := st.unind .main 4
  let st := st.addB .main "                exit 1\n                ;;\n\n            *)\n                positionals+=(\"$param\")\n                ;;\n        esac\n    done\n\n    set -- \"$\x7bpositionals[@]\x7d\"\n    arg_foo=$1\n    arg_bar=$\x7b2:-$\x7bDEFAULT_BAR\x7d\x7d\n\n    if [[ -z $arg_foo ]]\n    then" true
  let st := st.ind .main 2
  let st := if c.usage ≠ 0 then st.addL .main "print_help" else st
  let st :=
    if c.logging_utils then st.addL .main "err \x27Missing mandatory parameter: foo\x27"
    else st.addL .main "printf \x27%s: Error: Missing mandatory parameter: foo\\n\x27 \"$(basename \"$0\")\""
  let st := st.addL .main "exit 1"
  let st := st.unind .main
  let st := st.addL .main "fi >&2"
  let st := st.unind .main
  let st := st.addL .main "\x7d"
  st.addL .main

def subpart_parse_command_function_options_only
    (c : FileConfig) (st : GenState) : GenState :=
  let st := st.addB .main "        # Fill up global “opt_*” variables according to given options\n        # and perform basic checks on the presence of mandatory info.\n        #\n        # $@    Arguments originally passed to the script itself.\n        parse_command() \x7b"
  let st := st.ind .main 1
  let st := subpart_print_help_if_no_arg c st
  let st := st.addB .main "        # Clear all option-related variables before parsing.\n        unset -v \"$\x7b!opt_@\x7d\"\n\n        local param\n        while (($# > 0))\n        do\n            param=$1\n            shift\n            case $param in\n                -y|--yo)\n                    opt_yo=1\n                    ;;\n\n                -p|--plop)\n                    opt_plop=$\x7b1:?Missing argument for option: $\x7bparam\x7d\x7d\n                    shift\n                    ;;\n\n        "
  let st :=
    if c.dry then st.addB .main "        --dry)\n            DRY=1\n            ;;\n            " true
    else st
  let st :=
    if c.usage = 1 then st.addB .main "        -h|--help)\n            print_help\n            exit 0\n            ;;\n        " true
    else st
  let st :=
    if c.usage ≠ 0 then st.addB .main "        *)\n            print_help >&2" true
    else st.addB .main "        *)" true
  let st := st.ind .main 3
  let st :=
    if c.logging_utils then st.addL .main "err \x27Invalid option or extra parameter: %q\x27 \"$param\""
    else st.addL .main "printf \x27%s: Error: Invalid option or extra parameter: %q\\n\x27 \"$(basename \"$0\")\" \"$param\" >&2"
  let st := st.unind .main 4
  st.addB .main "                    exit 1\n                    ;;\n            esac\n        done\n    \x7d"

def subpart_parse_command_function_positionals_only
    (c : FileConfig) (st : GenState) : GenState :=
  let st := st.addB .main "        # Fill up global “arg_*” variables according to given arguments\n        # and perform basic checks on the presence of mandatory info.\n        #\n        # $@    Arguments originally passed to the script itself.\n        parse_command() \x7b"
  let st := st.ind .main 1
  let st := subpart_handle_help_request_without_fancy_option_parsing c true st
  let st := st.addB .main "        arg_foo=$1\n        arg_bar=$\x7b2:-$\x7bDEFAULT_BAR\x7d\x7d\n\n        if [[ -z $arg_foo ]]\n        then"
  let st := st.ind .main 1
  let st := if c.usage ≠ 0 then st.addL .main "print_help" else st
  let st :=
    if c.logging_utils then st.addL .main "err \x27Missing mandatory parameter: foo\x27"
    else st.addL .main "printf \x27%s: Error: Missing mandatory parameter: foo\\n\x27 \"$(basename \"$0\")\" >&2"
  let st := st.addL .main "exit 1"
  let st := st.unind .main
  let st := st.addL .main "fi >&2"
  let st := st.unind .main
  let st := st.addL .main "\x7d"
  st.addL .main

def part_parse_command_function (c : FileConfig) (st : GenState) : GenState :=
  if c.options then
    if c.positionals then subpart_parse_command_function_options_and_positionals c st
    else subpart_parse_command_function_options_only c st
  else if c.positionals then subpart_parse_command_function_positionals_only c st
  else st

def subpart_log_option_values (c : FileConfig) (st : GenState) : GenState :=
  if c.logging_utils then
    st.addL .main "log \x27Yo: %q; Plop: %q\x27 \"$opt_yo\" \"$opt_plop\""
  else
    let st := st.addL .main "printf \x27%s: Yo: %q; Plop: %q\\n\x27 \\"
    let st := st.ind .main 2
    let st := st.addL .main "\"$(basename \"$0\")\" \"$opt_yo\" \"$opt_plop\""
    st.unind .main 2

def subpart_log_parameter_values (c : FileConfig) (st : GenState) : GenState :=
  if c.logging_utils then
    st.addL .main "log \x27Foo: %q; Bar: %q\x27 \"$arg_foo\" \"$arg_bar\""
  else
    let st := st.addL .main "printf \x27%s: Foo: %q; Bar: %q\\n\x27 \\"
    let st := st.ind .main 2
    let st := st.addL .main "\"$(basename \"$0\")\" \"$arg_foo\" \"$arg_bar\""
    st.unind .main 2

def part_parse_command_call (c : FileConfig) (st : GenState) : GenState :=
  let the_call := "parse_command \"$@\""
  if c.options then
    if c.positionals then
      let st := st.addL .main the_call
      let st := st.addL .main
      let st := subpart_log_option_values c st
      let st := subpart_log_parameter_values c st
      st.addL .main
    else
      let st := st.addL .main the_call
      let st := st.addL .main
      let st := subpart_log_option_values c st
      st.addL .main
  else if c.positionals then
    let st := st.addL .main the_call
    let st := subpart_log_parameter_values c st
    st.addL .main
  else
    subpart_handle_help_request_without_fancy_option_parsing c c.main st

def part_start_main_part (c : FileConfig) (st : GenState) : GenState :=
  if c.main then
    let st := st.addL .main "main() \x7b"
    st.ind .main
  else
    let st := st.addL .main "# ================================"
    st.addL .main

def part_end_main_part (c : FileConfig) (st : GenState) : GenState :=
  if c.main then
    let st := st.addL .main "return 0"
    let st := st.unind .main
    st.addB .main "        \x7d\n\n        main \"$@\""
  else
    let st := st.addL .main
    st.addL .main "exit 0"

def part_dummy_business_instructions (c : FileConfig) (st : GenState) : GenState :=
  let pfx := if c.dry then "run_if_not_dry " else ""
  if c.logging_utils then st.addL .main (pfx ++ "log \x27TODO\x27")
  else st.addL .main (pfx ++ "echo \x27TODO\x27")

/-! ## Utility-file path resolution (`compute_utils_path`)

The filesystem is abstracted as an oracle `ex : String → Bool`
(`os.path.exists`); the unbounded `while True` probing loop is given
fuel, exhaustion of which maps to `GenErr.fuelExhausted` (the Python
loop simply would not have terminated on such an oracle). -/

/-- `os.path.dirname` for POSIX paths: everything up to the last slash,
with trailing slashes stripped unless the head is all slashes. -/
def dirname (p : String) : String :=
  let d := p.data
  match d.reverse.findIdx? (fun c => c = '/') with
  | none => ""
  | some k =>
    let head := d.take (d.length - k)
    if head ≠ [] ∧ ¬ head.all (fun c => c = '/') then
      String.mk (head.reverse.dropWhile (fun c => c = '/')).reverse
    else String.mk head

/-- `os.path.join` for POSIX paths (two components, as the script uses it). -/
def pathJoin (a b : String) : String :=
  if b.data.head? = some '/' then b
  else if a = "" ∨ a.data.getLast? = some '/' then a ++ b
  else a ++ "/" ++ b

/-- The `template.format(n=n)` candidate basename: `common-{n}.sh`. -/
def altName (n : Nat) : String :=
  COMMON_BASENAME_WITHOUT_EXTENSION ++ "-" ++ toString n ++ COMMON_BASENAME_EXTENSION

/-- The `while True` probing loop: try `common-{n}.sh`, `common-{n+1}.sh`, …
in the directory `d` until one does not exist. -/
def find_free_name (ex : String → Bool) (d : String) (n : Nat) (fuel : Nat) :
    Option String :=
  match fuel with
  | 0 => none
  | fuel + 1 =>
    let res := pathJoin d (altName n)
    if ex res then find_free_name ex d (n + 1) fuel
    else some res

/-- Determine a suitable path to save utility functions, or `none` if
the main script is on stdout (`main_writer.file is None`). -/
def compute_utils_path (ex : String → Bool) (mainFile : Option String)
    (utils : Fin 3) (fuel : Nat) : Except GenErr (Option String) :=
  match mainFile with
  | none =>
    -- The main script is on stdout, so there’s no use fiddling with
    -- files for the utility functions anyway.
    .ok none
  | some f =>
    if utils = 0 then .error .runtimeError
    else if f = devnull then .ok (some devnull)
    else
      let overwrite := utils = 1
      let d := dirname f
      let path_using_default_name := pathJoin d COMMON_BASENAME
      if overwrite ∨ ex path_using_default_name = false then
        .ok (some path_using_default_name)
      else
        match find_free_name ex d 2 fuel with
        | some res => .ok (some res)
        | none => .error .fuelExhausted

/-! ## The pipeline (`__main__`, composition and finalization) -/

/-- The whole fragment-composition pipeline: the sequence of `part_*`
calls of the script's `__main__` block, in source order. -/
def composeScript (c : FileConfig) (st : GenState) : Except GenErr GenState := do
  let st := part_shebang c st
  let st := part_flags c st
  let st := part_basedir c st
  let st := part_constants c st
  let st := part_logging_utils c st
  let st := part_dry_run_utils c st
  let st ← part_libraries c st
  let st ← part_traps_definition c st
  let st := part_usage_function c st
  let st := part_parse_command_function c st
  let st := part_start_main_part c st
  let st ← part_traps_activation c st
  let st := part_parse_command_call c st
  let st := part_dummy_business_instructions c st
  let st := part_end_main_part c st
  .ok st

/-- Names for the fragment generators, used to state in which order and
how often `composeScript` runs each of them. -/
inductive Part where
  | shebang
  | flags
  | basedir
  | constants
  | loggingUtils
  | dryRunUtils
  | libraries
  | trapsDefinition
  | trapsActivation
  | usageFunction
  | parseCommandFunction
  | parseCommandCall
  | startMainPart
  | endMainPart
  | dummyBusinessInstructions
deriving DecidableEq

def runPart (p : Part) (c : FileConfig) (st : GenState) : Except GenErr GenState :=
  match p with
  | .shebang => .ok (part_shebang c st)
  | .flags => .ok (part_flags c st)
  | .basedir => .ok (part_basedir c st)
  | .constants => .ok (part_constants c st)
  | .loggingUtils => .ok (part_logging_utils c st)
  | .dryRunUtils => .ok (part_dry_run_utils c st)
  | .libraries => part_libraries c st
  | .trapsDefinition => part_traps_definition c st
  | .trapsActivation => part_traps_activation c st
  | .usageFunction => .ok (part_usage_function c st)
  | .parseCommandFunction => .ok (part_parse_command_function c st)
  | .parseCommandCall => .ok (part_parse_command_call c st)
  | .startMainPart => .ok (part_start_main_part c st)
  | .endMainPart => .ok (part_end_main_part c st)
  | .dummyBusinessInstructions => .ok (part_dummy_business_instructions c st)

def runParts (ps : List Part) (c : FileConfig) (st : GenState) :
    Except GenErr GenState :=
  ps.foldlM (fun st p => runPart p c st) st

/-- One finalized output: its destination (`none` = standard output,
printed between banner lines) and its text, as lines. -/
structure Artifact where
  dest : Option String
  lines : List String
deriving DecidableEq

/-- `Writer.print_output_lines`: writing to `os.devnull` is skipped
entirely; otherwise the buffered lines go to the destination. -/
def emit_writer (w : Writer) : List Artifact :=
  if w.file = some devnull then []
  else [⟨w.file, w.output_lines⟩]

/-- The trailing-blank-line trim of `print_bash` (`while … pop`); the
list it is applied to always starts with the shebang, so the loop never
underflows. -/
def dropTrailingEmpties (ls : List String) : List String :=
  (ls.reverse.dropWhile (fun l => l = "")).reverse

/-- `print_bash`: the main writer is always drained; the utility writer
only if utilities were externalized and it accumulated lines, in which
case the shebang and a blank line are prepended and trailing empty
lines are removed. -/
def print_bash (c : FileConfig) (st : GenState) : List Artifact :=
  let mainArts := emit_writer st.main
  let utilArts :=
    match st.utils with
    | none => []
    | some uw =>
      if c.utils ≠ 0 ∧ uw.output_lines ≠ [] then
        let ls := [get_shebang c, ""] ++ uw.output_lines
        emit_writer { uw with output_lines := dropTrailingEmpties ls }
      else []
  mainArts ++ utilArts

/-- The writer-creation steps of `__main__`: the main writer bound to
`args.output`, the utility writer only when `utils != 0`, with the path
`compute_utils_path` resolves against the filesystem oracle. -/
def setupState (c : FileConfig) (ex : String → Bool) (output : Option String)
    (width fuel : Nat) : Except GenErr GenState :=
  let mainW : Writer := ⟨[], 0, width, output⟩
  if c.utils = 0 then .ok ⟨mainW, none⟩
  else
    match compute_utils_path ex output c.utils fuel with
    | .ok p => .ok ⟨mainW, some ⟨[], 0, width, p⟩⟩
    | .error e => .error e

/-- One whole generation run after elicitation: create the writers, run
the composition pipeline, finalize both writers into artifacts. -/
def runGenerator (c : FileConfig) (ex : String → Bool) (output : Option String)
    (width fuel : Nat) : Except GenErr (List Artifact) := do
  let st ← setupState c ex output width fuel
  let st ← composeScript c st
  .ok (print_bash c st)

/-! ## The yes/no question loop (`ask_yes_or_no`)

The interactive loop reads answers until one resolves; the operator's
successive answers are modelled as a list, and `none` means the listed
answers ran out without the loop terminating. -/

def ask_yes_or_no (dflt : Option Bool) : List String → Option Bool
  | [] => none
  | choice :: rest =>
    let lowered := choice.toLower
    let y := lowered.data.contains 'y'
    let n := lowered.data.contains 'n'
    match y, n with
    | true, false => some true
    | false, true => some false
    | true, true =>
      -- Ambiguous input: reprompt.
      ask_yes_or_no dflt rest
    | false, false =>
      -- Got neither “y” nor “n”.
      match dflt with
      | some d => some d
      | none => ask_yes_or_no dflt rest

/-- What one answer decides on its own: `some b` when it resolves the
question (possibly through the default), `none` when the loop reprompts. -/
def resolve_answer (dflt : Option Bool) (choice : String) : Option Bool :=
  let lowered := choice.toLower
  let y := lowered.data.contains 'y'
  let n := lowered.data.contains 'n'
  match y, n with
  | true, false => some true
  | false, true => some false
  | true, true => none
  | false, false => dflt

/-! ## Configuration serialization (`load_config` / `print_config`)

`print_config` serializes `dataclasses.asdict(conf)` as JSON (stable,
declaration-order keys); `load_config` builds `FileConfig(**data)` from
a parsed JSON object, modelled as an association list of keys and JSON
values.  Python does not type-check keyword-argument values, so the
loaded object is a `RawConfig` holding one JSON value per field; a key
that is no field name raises `TypeError` — CPython names the first
unexpected keyword argument — and `load_config` attaches a note
enumerating the valid field names before re-raising. -/

inductive JVal where
  | jbool : Bool → JVal
  | jint : Int → JVal
deriving DecidableEq

/-- The loaded configuration exactly as `FileConfig(**data)` stores it:
each field holds whatever JSON value was supplied, absent keys keep the
dataclass defaults. -/
structure RawConfig where
  use_env : JVal := .jbool true
  greadlink : JVal := .jbool false
  logging_utils : JVal := .jbool true
  set_e : JVal := .jbool false
  set_x : JVal := .jbool false
  err_trap : JVal := .jint 0
  exit_trap : JVal := .jint 0
  main : JVal := .jbool false
  options : JVal := .jbool true
  positionals : JVal := .jbool true
  usage : JVal := .jint 1
  dry : JVal := .jbool false
  utils : JVal := .jint 0
deriving DecidableEq

/-- `[field.name for field in dataclasses.fields(FileConfig)]`, in
declaration order. -/
def config_field_names : List String :=
  ["use_env", "greadlink", "logging_utils", "set_e", "set_x", "err_trap",
   "exit_trap", "main", "options", "positionals", "usage", "dry", "utils"]

def setRawField (r : RawConfig) (k : String) (v : JVal) : Option RawConfig :=
  if k = "use_env" then some { r with use_env := v }
  else if k = "greadlink" then some { r with greadlink := v }
  else if k = "logging_utils" then some { r with logging_utils := v }
  else if k = "set_e" then some { r with set_e := v }
  else if k = "set_x" then some { r with set_x := v }
  else if k = "err_trap" then some { r with err_trap := v }
  else if k = "exit_trap" then some { r with exit_trap := v }
  else if k = "main" then some { r with main := v }
  else if k = "options" then some { r with options := v }
  else if k = "positionals" then some { r with positionals := v }
  else if k = "usage" then some { r with usage := v }
  else if k = "dry" then some { r with dry := v }
  else if k = "utils" then some { r with utils := v }
  else none

/-- The failure of `load_config`: the key(s) the raised `TypeError`
message names (CPython reports the first unexpected keyword argument),
and the note listing the valid keys that `load_config` adds. -/
structure ConfigLoadError where
  reported_keys : List String
  note_valid_keys : List String
deriving DecidableEq

/-- `FileConfig(**data)` plus the error handling of `load_config`, for
an already-parsed JSON object. -/
def load_config (data : List (String × JVal)) : Except ConfigLoadError RawConfig :=
  match data.find? (fun kv => !(config_field_names.contains kv.1)) with
  | some kv => .error ⟨[kv.1], config_field_names⟩
  | none =>
    .ok (data.foldl (fun r kv => (setRawField r kv.1 kv.2).getD r) {})

/-- The JSON object `print_config` writes: `dataclasses.asdict(conf)`
in field-declaration order. -/
def dump_config (c : FileConfig) : List (String × JVal) :=
  [("use_env", .jbool c.use_env),
   ("greadlink", .jbool c.greadlink),
   ("logging_utils", .jbool c.logging_utils),
   ("set_e", .jbool c.set_e),
   ("set_x", .jbool c.set_x),
   ("err_trap", .jint c.err_trap.val),
   ("exit_trap", .jint c.exit_trap.val),
   ("main", .jbool c.main),
   ("options", .jbool c.options),
   ("positionals", .jbool c.positionals),
   ("usage", .jint c.usage.val),
   ("dry", .jbool c.dry),
   ("utils", .jint c.utils.val)]

/-- A `FileConfig` as the loader would represent it, field by field. -/
def toRaw (c : FileConfig) : RawConfig :=
  { use_env := .jbool c.use_env
    greadlink := .jbool c.greadlink
    logging_utils := .jbool c.logging_utils
    set_e := .jbool c.set_e
    set_x := .jbool c.set_x
    err_trap := .jint c.err_trap.val
    exit_trap := .jint c.exit_trap.val
    main := .jbool c.main
    options := .jbool c.options
    positionals := .jbool c.positionals
    usage := .jint c.usage.val
    dry := .jbool c.dry
    utils := .jint c.utils.val }

/-! ## Claim C1: order of the fragment pipeline -/

/-- C1 (counterexample): with `err_trap = 1` and the default `usage = 1`,
the composed script contains the trap-activation statement
`trap err_trap ERR`, but it appears after the usage function's opening
line `print_help() {` — the trap activation statements are not emitted
between the trap function bodies and the usage/help function, contrary
to the claimed order. -/
theorem c1_pipeline_counterexample :
    ((composeScript { err_trap := 1 } ⟨⟨[], 0, 4, none⟩, none⟩).toOption.map
      (fun st =>
        decide (st.main.output_lines.indexOf "print_help() \x7b" <
            st.main.output_lines.indexOf "trap err_trap ERR") &&
        decide (st.main.output_lines.indexOf "trap err_trap ERR" <
            st.main.output_lines.length))) = some true := by decide

/-- C1 (amended): for every configuration the Fragment Composer runs its
generators exactly once each, in the order: interpreter header,
strict-mode flags line, base-directory block, shared constants, logging
helpers, dry-run helpers, utility sourcing line, trap function bodies,
usage function, argument-parsing function, entry-point opening, trap
activation statements (emitted once, inside the entry scope when `main`
is active), argument-parsing invocation with echo-back, placeholder
logic, entry-point closing and invocation.  In particular the trap
activation statements are emitted after the entry-point opening, not
between the trap function bodies and the usage function. -/
theorem c1_fragment_pipeline_order :
    (∀ (c : FileConfig) (st : GenState),
      composeScript c st =
        runParts [Part.shebang, Part.flags, Part.basedir, Part.constants,
          Part.loggingUtils, Part.dryRunUtils, Part.libraries,
          Part.trapsDefinition, Part.usageFunction, Part.parseCommandFunction,
          Part.startMainPart, Part.trapsActivation, Part.parseCommandCall,
          Part.dummyBusinessInstructions, Part.endMainPart] c st)
    ∧ ([Part.shebang, Part.flags, Part.basedir, Part.constants,
        Part.loggingUtils, Part.dryRunUtils, Part.libraries,
        Part.trapsDefinition, Part.usageFunction, Part.parseCommandFunction,
        Part.startMainPart, Part.trapsActivation, Part.parseCommandCall,
        Part.dummyBusinessInstructions, Part.endMainPart] : List Part).Nodup :=
  ⟨fun _ _ => rfl, by decide⟩

/-! ## Claim C2: externalized utilities with the main artifact on stdout -/

/-- C2 (counterexample): with the main artifact on standard output and
`utils = 1` (externalized utilities), the default configuration's run
places the logging helpers in the utility Writer and produces a second,
separate artifact on standard output — its lines are nonempty and its
destination is the standard-output sentinel. -/
theorem c2_stdout_counterexample :
    ((runGenerator { utils := 1 } (fun _ => false) none 4 1).toOption.map
      (fun arts =>
        decide (arts.length = 2) &&
        decide (arts.map (fun a => a.dest) = [none, none]) &&
        decide (∀ a ∈ arts, a.lines ≠ []))) = some true := by decide

/-- C2 (amended): when the main artifact targets standard output,
`compute_utils_path` computes no utility file path (it returns `none`
before consulting the filesystem, for every `utils` value) — the
utility Writer then also targets standard output; but fragments are
still placed in the utility Writer (the default configuration with
`utils = 1` fills it), and a separate utility output is then produced
on standard output. -/
theorem c2_stdout_externalized_utils :
    (∀ (ex : String → Bool) (u : Fin 3) (fuel : Nat),
      compute_utils_path ex none u fuel = .ok none)
    ∧ ((runGenerator { utils := 1 } (fun _ => false) none 4 1).toOption.map
        (fun arts => (arts.length, arts.map (fun a => a.dest)))
        = some (2, [none, none])) :=
  ⟨fun _ _ _ => rfl, by decide⟩

/-! ## Claim C3: loading a serialized configuration with unknown keys -/

/-- C3 (counterexample): loading an object with the two unrecognized
keys `alpha` and `beta` fails, but the raised error names only the
first unrecognized key (`alpha`, as CPython's unexpected-keyword
`TypeError` does), not every one: `beta` is not among the named keys. -/
theorem c3_load_counterexample :
    config_field_names.contains "beta" = false ∧
    load_config [("alpha", .jint 1), ("beta", .jint 2)] =
      .error ⟨["alpha"], config_field_names⟩ ∧
    "beta" ∉ ["alpha"] :=
  ⟨by decide, rfl, by decide⟩

/-- C3 (amended): loading fails exactly when some key is not a
configuration field name; the error's note enumerates all valid field
names, and the error names the first unrecognized key (one unrecognized
key, not every one).  Loading succeeds whenever every key is a known
field name. -/
theorem c3_load_unknown_keys (data : List (String × JVal)) :
    ((load_config data).isOk = true ↔
      ∀ kv ∈ data, config_field_names.contains kv.1 = true)
    ∧ ∀ e, load_config data = .error e →
        e.note_valid_keys = config_field_names ∧
        ∃ kv ∈ data, config_field_names.contains kv.1 = false ∧
          e.reported_keys = [kv.1] := by
  have hmain : load_config data =
      match data.find? (fun kv => !(config_field_names.contains kv.1)) with
      | some kv => .error ⟨[kv.1], config_field_names⟩
      | none =>
        .ok (data.foldl (fun r kv => (setRawField r kv.1 kv.2).getD r) {}) := rfl
  rcases h : data.find? (fun kv => !(config_field_names.contains kv.1)) with _ | kv
  · rw [h] at hmain
    constructor
    · rw [hmain]
      refine ⟨fun _ kv hkv => ?_, fun _ => rfl⟩
      have := (List.find?_eq_none.mp h) kv hkv
      simpa using this
    · intro e he
      rw [hmain] at he
      exact absurd he (by simp)
  · rw [h] at hmain
    constructor
    · rw [hmain]
      constructor
      · intro hfalse
        simp [Except.isOk, Except.toBool] at hfalse
      · intro hall
        exfalso
        have h1 := List.find?_some h
        have h2 := List.mem_of_find?_eq_some h
        rw [hall kv h2] at h1
        simp at h1
    · intro e he
      rw [hmain] at he
      have he' : e = ⟨[kv.1], config_field_names⟩ := by
        cases he
        rfl
      subst he'
      refine ⟨rfl, kv, List.mem_of_find?_eq_some h, ?_, rfl⟩
      have h1 := List.find?_some h
      simpa using h1

/-! ## Claim C4: dump/load round-trip -/

/-- C4: serializing a configuration with `print_config`'s
`dataclasses.asdict` object and loading the result with `load_config`
yields a configuration equal in every field to the original. -/
theorem c4_dump_load_roundtrip (c : FileConfig) :
    load_config (dump_config c) = .ok (toRaw c) := rfl

/-! ## Claim C8: the yes/no question loop -/

/-- C8: for every yes/no question (default optional) and sequence of
operator answers: an answer containing (case-insensitively) `y` but not
`n` resolves to true, one containing `n` but not `y` to false, one
containing both reprompts, one containing neither returns the default
when defined and reprompts otherwise; and the loop terminates only on a
resolving answer — an exhausted answer list yields no result, and a
result always comes from the first answer resolving or from the rest of
the loop. -/
theorem c8_yes_no_question_loop (dflt : Option Bool) (a : String)
    (rest : List String) :
    (a.toLower.data.contains 'y' = true → a.toLower.data.contains 'n' = false →
        ask_yes_or_no dflt (a :: rest) = some true)
    ∧ (a.toLower.data.contains 'y' = false → a.toLower.data.contains 'n' = true →
        ask_yes_or_no dflt (a :: rest) = some false)
    ∧ (a.toLower.data.contains 'y' = true → a.toLower.data.contains 'n' = true →
        ask_yes_or_no dflt (a :: rest) = ask_yes_or_no dflt rest)
    ∧ (a.toLower.data.contains 'y' = false → a.toLower.data.contains 'n' = false →
        ask_yes_or_no dflt (a :: rest) =
          if dflt.isSome then dflt else ask_yes_or_no dflt rest)
    ∧ ask_yes_or_no dflt [] = none
    ∧ (∀ b : Bool, ask_yes_or_no dflt (a :: rest) = some b →
        resolve_answer dflt a = some b ∨
          (resolve_answer dflt a = none ∧ ask_yes_or_no dflt rest = some b)) := by
  rcases hy : a.toLower.data.contains 'y'
    <;> rcases hn : a.toLower.data.contains 'n'
    <;> rcases dflt with _ | d
    <;> simp only [ask_yes_or_no, resolve_answer, hy, hn]
    <;> simp

/-! ## Claim C9: the usage generator restores the indent width -/

/-- C9: for every configuration and writer state, after the
usage-function generator returns, the main writer's configured indent
width equals its value before the call, even though the generator
temporarily sets it to 2 for the help here-document. -/
theorem c9_usage_indent_width_restored (c : FileConfig) (st : GenState) :
    (part_usage_function c st).main.indent_size = st.main.indent_size := by
  by_cases h : c.usage = 0
  · simp [part_usage_function, h]
  · unfold part_usage_function
    rw [if_neg h]
    exact rfl

/-! ## Claim C10: the utility sourcing line and `|| exit` -/

/-- `str.endswith` for the emitted line. -/
def ends_with (s suffix : String) : Bool := decide (suffix.data <:+ s.data)

theorem ends_with_append (x s : String) : ends_with (x ++ s) s = true := by
  simp only [ends_with, String.data_append, decide_eq_true_eq]
  exact List.suffix_append x.data s.data

theorem not_ends_with_exit_of_last_quote (s : String)
    (h : s.data.getLast? = some '"') : ends_with s " || exit" = false := by
  simp only [ends_with, decide_eq_false_iff_not]
  intro hsuf
  obtain ⟨t, ht⟩ := hsuf
  rw [← ht, List.getLast?_append] at h
  have : (" || exit".data).getLast? = some 't' := rfl
  rw [this] at h
  simp [Option.or] at h

theorem is_blank_append (s t : String) :
    is_blank (s ++ t) = (is_blank s && is_blank t) := by
  simp [is_blank, String.data_append, List.all_append]

/-- What `add_line` does to the main writer's buffered lines. -/
theorem addL_main_output (st : GenState) (s : String) :
    (st.addL .main s).main.output_lines
      = st.main.output_lines ++
        [if is_blank s then ""
         else mkSpaces (st.main.current_indent_steps * (st.main.indent_size : Int)).toNat ++ s] := rfl

/-- C10: whenever utilities are externalized (`utils ≠ 0`) and the
utility writer exists, the libraries generator emits exactly one
sourcing instruction (followed by a blank line) on the main writer, and
that line ends with the suffix ` || exit` if and only if `set_e` is
false. -/
theorem c10_sourcing_line_exit_suffix (c : FileConfig) (st : GenState) (uw : Writer)
    (hu : c.utils ≠ 0) (hw : st.utils = some uw) :
    ∃ st' line, part_libraries c st = .ok st' ∧
      st'.main.output_lines = st.main.output_lines ++ [line, ""] ∧
      ends_with line " || exit" = !c.set_e := by
  have hbase : ∀ lib : String,
      ((". \"$\x7bBASEDIR:?\x7d/" ++ lib ++ "\"") : String).data.getLast? = some '"' := by
    intro lib
    rw [String.data_append, List.getLast?_append]
    rfl
  have hblank : ∀ lib tail : String,
      is_blank (". \"$\x7bBASEDIR:?\x7d/" ++ lib ++ "\"" ++ tail) = false := by
    intro lib tail
    simp only [is_blank, String.data_append, List.all_append]
    have : (". \"$\x7bBASEDIR:?\x7d/" : String).data.all
        (fun ch => ch.isWhitespace) = false := by decide
    simp [this]
  set base : String :=
    ". \"$\x7bBASEDIR:?\x7d/" ++ basename (py_or_string uw.file COMMON_BASENAME) ++ "\"" with hbasedef
  have heq : part_libraries c st =
      .ok ((st.addL .main (if ¬c.set_e = true then base ++ " || exit" else base)).addL .main) := by
    unfold part_libraries
    rw [if_neg hu, hw]
  by_cases hse : c.set_e
  · -- `set -e` is active: no ` || exit` suffix, the line ends with `"`.
    refine ⟨_, mkSpaces (st.main.current_indent_steps * (st.main.indent_size : Int)).toNat ++ base,
      heq, ?_, ?_⟩
    · rw [addL_main_output, addL_main_output]
      have h1 : is_blank base = false := by
        have := hblank (basename (py_or_string uw.file COMMON_BASENAME)) ""
        simpa [hbasedef] using this
      simp [hse, h1, show is_blank "" = true from by decide]
    · have hlast : (mkSpaces (st.main.current_indent_steps * (st.main.indent_size : Int)).toNat
          ++ base).data.getLast? = some '"' := by
        rw [String.data_append, List.getLast?_append, hbasedef, hbase]
        rfl
      rw [not_ends_with_exit_of_last_quote _ hlast, hse]
      rfl
  · -- no `set -e`: the instruction gets the ` || exit` suffix.
    have hse' : c.set_e = false := by simpa using hse
    refine ⟨_, mkSpaces (st.main.current_indent_steps * (st.main.indent_size : Int)).toNat ++
      (base ++ " || exit"), heq, ?_, ?_⟩
    · rw [addL_main_output, addL_main_output]
      have h1 : is_blank (base ++ " || exit") = false := by
        have := hblank (basename (py_or_string uw.file COMMON_BASENAME)) " || exit"
        simpa [hbasedef] using this
      simp [hse', h1, show is_blank "" = true from by decide]
    · rw [hse', ← String.append_assoc]
      exact ends_with_append _ _

/-- C10 (witness): a concrete externalized-utilities state without
`set_e`: the emitted sourcing line ends with ` || exit`. -/
theorem c10_sourcing_line_exit_suffix_witness :
    ∃ st' line,
      part_libraries { utils := 1 }
          ⟨⟨[], 0, 4, none⟩, some ⟨[], 0, 4, some "d/common.sh"⟩⟩ = .ok st' ∧
      st'.main.output_lines = ([] : List String) ++ [line, ""] ∧
      ends_with line " || exit" = !(({ utils := 1 } : FileConfig).set_e) :=
  c10_sourcing_line_exit_suffix { utils := 1 }
    ⟨⟨[], 0, 4, none⟩, some ⟨[], 0, 4, some "d/common.sh"⟩⟩
    ⟨[], 0, 4, some "d/common.sh"⟩ (by decide) rfl

/-! ## Claim C5: collision resolution for the utility-file name -/

theorem find_free_name_spec (ex : String → Bool) (d : String) :
    ∀ (fuel n0 n : Nat), n0 ≤ n → n < n0 + fuel →
      (∀ m, n0 ≤ m → m < n → ex (pathJoin d (altName m)) = true) →
      ex (pathJoin d (altName n)) = false →
      find_free_name ex d n0 fuel = some (pathJoin d (altName n)) := by
  intro fuel
  induction fuel with
  | zero =>
    intro n0 n h1 h2 _ _
    omega
  | succ f ih =>
    intro n0 n h1 h2 hall hn
    by_cases he : n0 = n
    · subst he
      simp [find_free_name, hn]
    · have hlt : n0 < n := lt_of_le_of_ne h1 he
      have hex : ex (pathJoin d (altName n0)) = true := hall n0 le_rfl hlt
      simp only [find_free_name, hex, if_true]
      exact ih (n0 + 1) n hlt (by omega) (fun m hm1 hm2 => hall m (by omega) hm2) hn

/-- C5: in suffix-on-collision mode (`utils = 2`), with the main
artifact on a real file, utility-path resolution probes
`common-2.sh`, `common-3.sh`, … in increasing order and returns the
first candidate that does not exist: if the default `common.sh` exists
and every suffixed candidate below `n` exists but `common-{n}.sh` does
not, the resolved path is `common-{n}.sh` (so with `common.sh` and
`common-2.sh` present and `common-3.sh` absent it returns
`common-3.sh`). -/
theorem c5_utils_collision_resolution (ex : String → Bool) (f : String)
    (n fuel : Nat)
    (hf : f ≠ devnull)
    (hd : ex (pathJoin (dirname f) COMMON_BASENAME) = true)
    (h2 : 2 ≤ n) (hfuel : n < 2 + fuel)
    (hall : ∀ m, 2 ≤ m → m < n → ex (pathJoin (dirname f) (altName m)) = true)
    (hn : ex (pathJoin (dirname f) (altName n)) = false) :
    compute_utils_path ex (some f) 2 fuel =
      .ok (some (pathJoin (dirname f) (altName n))) := by
  have hfind := find_free_name_spec ex (dirname f) fuel 2 n h2 hfuel hall hn
  simp only [compute_utils_path,
    show ((2 : Fin 3) = 0) ↔ False from by decide,
    show ((2 : Fin 3) = 1) ↔ False from by decide,
    hd, if_false, false_or]
  rw [if_neg hf]
  rw [if_neg (by simp : ¬((true : Bool) = false)), hfind]

/-- C5 (witness): the claim's concrete scenario — `common.sh` and
`common-2.sh` exist beside the output file, `common-3.sh` does not, so
resolution returns `common-3.sh`. -/
theorem c5_utils_collision_resolution_witness :
    compute_utils_path
        (fun s => s = "proj/common.sh" || s = "proj/common-2.sh")
        (some "proj/script.sh") 2 5 = .ok (some "proj/common-3.sh") := by
  have h := c5_utils_collision_resolution
    (fun s => s = "proj/common.sh" || s = "proj/common-2.sh")
    "proj/script.sh" 3 5 (by decide) (by decide) (by decide) (by decide)
    (fun m hm1 hm2 => by
      have hm : m = 2 := by omega
      subst hm
      decide)
    (by decide)
  simpa using h

/-! ## Claim C6: indentation-unit conversion of authored blocks -/

theorem countLeadingSpaces_replicate_append (m : Nat) (xs : List Char) :
    countLeadingSpaces (List.replicate m ' ' ++ xs) = m + countLeadingSpaces xs := by
  induction m with
  | zero => simp
  | succ i ih =>
    simp [List.replicate_succ, countLeadingSpaces, ih]
    omega

theorem countLeadingSpaces_drop_self (xs : List Char) :
    countLeadingSpaces (xs.drop (countLeadingSpaces xs)) = 0 := by
  induction xs with
  | nil => rfl
  | cons c cs ih =>
    by_cases hc : c = ' '
    · simp [countLeadingSpaces, hc, ih]
    · simp [countLeadingSpaces, hc]

theorem take_countLeadingSpaces (xs : List Char) :
    xs.take (countLeadingSpaces xs) = List.replicate (countLeadingSpaces xs) ' ' := by
  induction xs with
  | nil => rfl
  | cons c cs ih =>
    by_cases hc : c = ' '
    · simp [countLeadingSpaces, hc, List.replicate_succ, ih]
    · simp [countLeadingSpaces, hc]

theorem data_decomp_of_leading (l : String) (k : Nat) (h : leadingSpaces l = k) :
    l.data = List.replicate k ' ' ++ l.data.drop k := by
  conv_lhs => rw [← List.take_append_drop k l.data]
  rw [← h, leadingSpaces, take_countLeadingSpaces]

theorem is_blank_mkSpaces (n : Nat) : is_blank (mkSpaces n) = true := by
  simp only [is_blank, mkSpaces, List.all_eq_true]
  intro c hc
  rw [List.eq_of_mem_replicate hc]
  decide

/-- What a line of a dedented block becomes at writer depth 0: the
4-space groups are converted, then `add_line` blanks a whitespace-only
result and otherwise adds no depth prefix. -/
def emitted_at_zero (size : Nat) (s : String) : String :=
  if is_blank (convert_line size s) then "" else convert_line size s

theorem mkSpaces_zero_append (s : String) : mkSpaces 0 ++ s = s := by
  cases s
  rfl

theorem add_lines_fold_at_zero (size : Nat) :
    ∀ (lines : List String) (w : Writer), w.current_indent_steps = 0 → w.indent_size = size →
      (lines.foldl (fun w line => w.add_line (convert_line w.indent_size line)) w).output_lines
        = w.output_lines ++ lines.map (emitted_at_zero size) := by
  intro lines
  induction lines with
  | nil =>
    intro w h0 hs
    simp
  | cons l ls ih =>
    intro w h0 hs
    simp only [List.foldl_cons, List.map_cons]
    rw [ih (w.add_line (convert_line w.indent_size l)) h0 hs]
    unfold Writer.add_line
    simp only [h0, hs]
    unfold emitted_at_zero
    by_cases hb : is_blank (convert_line size l)
    · simp [hb]
    · simp [hb, mkSpaces_zero_append]

/-- C6: a multi-line block appended at writer depth 0 without
`keep_indentation` at configured indent width 2 has each of its
(dedented) lines' leading runs of 4-space groups rewritten to the same
number of 2-space groups: a line at nesting level `k` (leading spaces
exactly `4·k`) is emitted prefixed by exactly `2·k` spaces — so one
level gives 2 spaces and two levels give 4, never 4 and 8. -/
theorem c6_block_indentation_conversion (w : Writer) (text l : String) (k : Nat)
    (hdepth : w.current_indent_steps = 0) (hwidth : w.indent_size = 2)
    (hmem : l ∈ dedentLines text) (hlead : leadingSpaces l = 4 * k)
    (hnb : is_blank l = false) :
    (w.add_lines text false).output_lines
      = w.output_lines ++ (dedentLines text).map (emitted_at_zero 2)
    ∧ emitted_at_zero 2 l = mkSpaces (2 * k) ++ dropChars (4 * k) l
    ∧ leadingSpaces (emitted_at_zero 2 l) = 2 * k := by
  have hdecomp := data_decomp_of_leading l (4 * k) hlead
  have hdropnb : (l.data.drop (4 * k)).all (fun c => c.isWhitespace) = false := by
    by_contra hcon
    rw [Bool.not_eq_false] at hcon
    have hbl : is_blank l = true := by
      rw [is_blank]
      conv_lhs => rw [hdecomp]
      rw [List.all_append, hcon]
      simp only [Bool.and_true, List.all_eq_true]
      intro c hc
      rw [List.eq_of_mem_replicate hc]
      decide
    rw [hbl] at hnb
    exact absurd hnb (by simp)
  have hcnv : convert_line 2 l = mkSpaces (2 * k) ++ dropChars (4 * k) l := by
    rcases Nat.eq_zero_or_pos k with hk | hk
    · subst hk
      simp only [Nat.mul_zero] at hlead ⊢
      unfold convert_line
      rw [hlead]
      simp only [Nat.zero_div, if_pos rfl]
      cases l
      rfl
    · unfold convert_line
      rw [hlead]
      have hg : 4 * k / 4 = k := by omega
      rw [hg, if_neg (by omega : ¬(k = 0))]
  have hblankcnv : is_blank (convert_line 2 l) = false := by
    rw [hcnv, is_blank_append, is_blank_mkSpaces]
    simp only [Bool.true_and]
    simpa [is_blank, dropChars] using hdropnb
  have hemit : emitted_at_zero 2 l = mkSpaces (2 * k) ++ dropChars (4 * k) l := by
    unfold emitted_at_zero
    rw [hblankcnv, if_neg (by simp)]
    exact hcnv
  refine ⟨?_, hemit, ?_⟩
  · unfold Writer.add_lines
    simp only [Bool.false_eq_true, if_false]
    exact add_lines_fold_at_zero 2 (dedentLines text) w hdepth hwidth
  · rw [hemit, leadingSpaces, String.data_append]
    have hdata : (mkSpaces (2 * k)).data = List.replicate (2 * k) ' ' := rfl
    have hdata2 : (dropChars (4 * k) l).data = l.data.drop (4 * k) := rfl
    rw [hdata, hdata2, countLeadingSpaces_replicate_append]
    have h0 : countLeadingSpaces (l.data.drop (4 * k)) = 0 := by
      have h := countLeadingSpaces_drop_self l.data
      rw [show countLeadingSpaces l.data = 4 * k from hlead] at h
      exact h
    rw [h0]
    omega

/-- C6 (witness): the block `"head\n    alpha\n        beta"` (levels
0, 1, 2 in 4-space units) rendered at width 2 and depth 0 yields lines
prefixed with 0, 2 and 4 spaces. -/
theorem c6_block_indentation_conversion_witness :
    ((Writer.mk [] 0 2 none).add_lines "head\n    alpha\n        beta" false).output_lines
        = ["head", "  alpha", "    beta"]
    ∧ emitted_at_zero 2 "        beta" = "    beta" := by
  have h := c6_block_indentation_conversion ⟨[], 0, 2, none⟩
    "head\n    alpha\n        beta" "        beta" 2 rfl rfl
    (by decide) (by decide) (by decide)
  exact ⟨h.1.trans (by decide), h.2.1.trans (by decide)⟩

/-! ## Claim C7: argument-shape selection -/

/-- Python `pat in s` (substring membership), for scanning the
generated lines. -/
def contains_sub (s pat : String) : Bool := decide (pat.data <:+: s.data)

/-- The argument-parsing generator reads only `logging_utils`,
`options`, `positionals`, `usage` and `dry`; the remaining fields can
be normalised away. -/
theorem part_parse_command_function_depends (ue gr lu se sx : Bool) (et : Fin 3)
    (xt : Fin 4) (mn op po : Bool) (us : Fin 4) (dr : Bool) (ut : Fin 3)
    (st : GenState) :
    part_parse_command_function ⟨ue, gr, lu, se, sx, et, xt, mn, op, po, us, dr, ut⟩ st
      = part_parse_command_function
          ⟨true, false, lu, false, false, 0, 0, false, op, po, us, dr, 0⟩ st := rfl

/-- C7: for every configuration with `options = true` and
`positionals = false`, the generated argument-parsing function contains
no positional-assignment statement (no `arg_foo`/`arg_bar` assignment
and no `positionals` array manipulation); for every configuration with
`options = false` and `positionals = true`, it contains no flag case
statement (no `case `/`esac` construct and no `-y|--yo` arm). -/
theorem c7_argument_shape_selection (c : FileConfig) :
    (c.options = true → c.positionals = false →
      ∀ l ∈ (part_parse_command_function c ⟨⟨[], 0, 4, none⟩, none⟩).main.output_lines,
        contains_sub l "arg_foo" = false ∧ contains_sub l "arg_bar" = false ∧
        contains_sub l "positionals" = false)
    ∧ (c.options = false → c.positionals = true →
      ∀ l ∈ (part_parse_command_function c ⟨⟨[], 0, 4, none⟩, none⟩).main.output_lines,
        contains_sub l "case " = false ∧ contains_sub l "esac" = false ∧
        contains_sub l "-y|--yo" = false) := by
  obtain ⟨ue, gr, lu, se, sx, et, xt, mn, op, po, us, dr, ut⟩ := c
  constructor
  · rintro rfl rfl
    rw [part_parse_command_function_depends]
    fin_cases us <;> cases dr <;> cases lu <;> decide
  · rintro rfl rfl
    rw [part_parse_command_function_depends]
    fin_cases us <;> cases dr <;> cases lu <;> decide

end CreateBashScript
